import Mathlib

/-!
Verification of the user-reminders integration against its design document.

The Python sources are shallowly embedded:

* Timestamps (`datetime` values) are modelled as `Int` epoch seconds on a
  single local timeline.  `t.replace(hour=h, minute=m, second=s, microsecond=0)`
  and `datetime.combine(d, time(h, m, s))` become `atTime`; `t.date()` becomes
  `dateOf` (a day index); `timedelta` addition is plain integer addition.
* ISO-8601 date strings are abstracted to the inductive `RawDate`: `RawDate.iso t`
  stands for `t.isoformat()` and `RawDate.bad s` for any string rejected by
  `datetime.fromisoformat`.  The repository treats stored date strings opaquely
  through exactly this isoformat/fromisoformat interface, so the abstraction
  loses nothing the code observes.
* Raised exceptions become `Except String` results; a `.error` result means the
  Python call raised before reaching its save/return, so the persisted store is
  left as it was.
* Python truthiness tests (`if s:` on an optional string, `if parsed_hour:` on
  an optional int) are modelled by explicit truthiness functions.
-/

namespace UserReminders

/-- Seconds in a day. -/
def secPerDay : Int := 86400

/-- The civil date of a timestamp, as a day index (floor division, matching
`datetime.date()` on the local timeline). -/
def dateOf (t : Int) : Int := t.ediv secPerDay

/-- Seconds since midnight of a timestamp's day. -/
def timeOfDay (t : Int) : Int := t.emod secPerDay

/-- `t.replace(hour=h, minute=m, second=s, microsecond=0)`, also
`datetime.combine(t.date(), time(h, m, s))`. -/
def atTime (t h m s : Int) : Int := dateOf t * secPerDay + h * 3600 + m * 60 + s

/-- `t.hour`. -/
def hourOf (t : Int) : Int := (timeOfDay t).ediv 3600

/-- `t.weekday()`: Monday = 0 .. Sunday = 6 (day 0 = 1970-01-01 was a Thursday). -/
def weekdayOf (t : Int) : Int := (dateOf t + 3).emod 7

/-- A stored date string: `iso t` is `t.isoformat()`, `bad s` is any string
`datetime.fromisoformat` rejects. -/
inductive RawDate where
  | iso (t : Int)
  | bad (s : String)
deriving DecidableEq, Repr

/-- `datetime.fromisoformat` on a stored date string. -/
def fromisoformat : RawDate → Option Int
  | .iso t => some t
  | .bad _ => none

/-- Python truthiness of an optional string (`None` and `""` are falsy). -/
def truthyStr : Option String → Bool
  | none => false
  | some s => s ≠ ""

/-- Python truthiness of an optional int (`None` and `0` are falsy). -/
def truthyInt : Option Int → Bool
  | none => false
  | some n => n ≠ 0

/-- Python `str.lower()` (character-wise, which is all the slot strings
need). -/
def pyLower (s : String) : String := String.mk (s.toList.map Char.toLower)

/-- Strip leading and trailing whitespace from a character list. -/
def stripList (cs : List Char) : List Char :=
  ((cs.dropWhile Char.isWhitespace).reverse.dropWhile Char.isWhitespace).reverse

/-- Python `str.strip()`. -/
def pyStrip (s : String) : String := String.mk (stripList s.toList)

/-- Value of a non-empty all-digit character list, else `none`. -/
def digitsToNat (cs : List Char) : Option Nat :=
  if cs.isEmpty then none
  else if cs.all Char.isDigit then
    some (cs.foldl (fun acc c => acc * 10 + (c.toNat - 48)) 0)
  else none

/-- Python `int(s)` for a decimal slot string: whitespace is stripped, an
optional sign precedes the digits; anything else raises `ValueError`
(`none`). -/
def pyToInt? (s : String) : Option Int :=
  match stripList s.toList with
  | '-' :: rest => (digitsToNat rest).map (fun v => -(v : Int))
  | '+' :: rest => (digitsToNat rest).map (fun v => (v : Int))
  | cs => (digitsToNat cs).map (fun v => (v : Int))

/-- `ReminderItem` (custom_components/reminders/const.py). -/
structure ReminderItem where
  uid : String
  list_id : String
  summary : String
  due : Int
  user_id : Option String
  last_fired : Option Int
deriving DecidableEq, Repr

/-- A raw persisted record, one value of the `reminders` dict.  The writers
(create/update) always store the `id`, `list_id`, `summary` and `due` keys with
string values and `user_id` / `last_fired` possibly `None`, which fixes the
field types. -/
structure RawRecord where
  id : String
  list_id : String
  summary : String
  due : RawDate
  user_id : Option String
  last_fired : Option RawDate
deriving DecidableEq, Repr

/-! ## Scheduler (user_reminders/scheduler.py) -/

/-- `last_fired_in_over_24h` (scheduler.py lines 14-22).  The helper calls
`datetime.now()` itself; the whole tick is modelled at the single instant
`now`. -/
def last_fired_in_over_24h (r : ReminderItem) (now : Int) : Bool :=
  match r.last_fired with
  | none => true
  | some lf => lf ≤ now - 24 * 3600

/-- Payload of the `user_reminder_due` event fired by the scheduler. -/
structure DueEvent where
  uid : String
  summary : String
  due : Int
  user_id : Option String
  list_id : String
deriving DecidableEq, Repr

/-- The due-event the scheduler emits for a parsed reminder. -/
def mkDueEvent (r : ReminderItem) : DueEvent :=
  ⟨r.uid, r.summary, r.due, r.user_id, r.list_id⟩

/-- `if last_fired: last_fired = datetime.fromisoformat(last_fired)` — parsing a
stored optional date, raising (`.error`) on a malformed string.  Stored
`last_fired` values are written as `None` or an isoformat rendering (never the
empty string), so Python truthiness coincides with non-`None` here. -/
def parseOptDate : Option RawDate → Except String (Option Int)
  | none => .ok none
  | some rd =>
    match fromisoformat rd with
    | some t => .ok (some t)
    | none => .error "ValueError: invalid isoformat string"

/-- Observable outcome of one scheduler poll tick: the due events fired on the
bus and the `update_item` service calls issued (uid paired with the
`last_fired = now` each carries) before the tick either finished or raised;
`err` records the exception that ended the tick early, if any. -/
structure TickResult where
  events : List DueEvent
  updates : List (String × Int)
  err : Option String
deriving DecidableEq, Repr

/-- One scheduler poll tick `_check(now)` (scheduler.py lines 29-71) over the
values of the `reminders` dict, in iteration order.  There is no try/except
around the per-record parsing, so a malformed record raises out of the whole
tick; events already fired for earlier records stand, later records are never
evaluated. -/
def checkTick (now : Int) : List RawRecord → TickResult
  | [] => ⟨[], [], none⟩
  | r :: rest =>
    match parseOptDate r.last_fired with
    | .error e => ⟨[], [], some e⟩
    | .ok lf =>
      match fromisoformat r.due with
      | none => ⟨[], [], some "ValueError: invalid isoformat string"⟩
      | some due =>
        let item : ReminderItem := ⟨r.id, r.list_id, r.summary, due, r.user_id, lf⟩
        let tail := checkTick now rest
        if item.due ≤ now && last_fired_in_over_24h item now then
          ⟨mkDueEvent item :: tail.events, (item.uid, now) :: tail.updates, tail.err⟩
        else
          tail

/-! ## Storage dictionary (hass.data[DOMAIN]["reminders"]) -/

/-- The persisted reminder collection: the `uid -> record` dict, as an ordered
association list (Python dicts preserve insertion order). -/
abbrev Reminders := List (String × RawRecord)

/-- Dict indexing `m[k]` / `m.get(k)`: the first binding of `k`. -/
def lookup (m : Reminders) (k : String) : Option RawRecord :=
  match m with
  | [] => none
  | (k', v) :: rest => if k' = k then some v else lookup rest k

/-- Dict assignment `m[k] = v`: replaces the binding in place if `k` is
present, otherwise appends it. -/
def dictSet (m : Reminders) (k : String) (v : RawRecord) : Reminders :=
  if m.any (fun p => p.1 = k) then
    m.map (fun p => if p.1 = k then (k, v) else p)
  else
    m ++ [(k, v)]

/-- `del m[k]`, after the caller has checked presence. -/
def dictErase (m : Reminders) (k : String) : Reminders :=
  m.filter (fun p => p.1 ≠ k)

/-! ## ReminderItemFactory (custom_components/reminders/const.py lines 51-100) -/

/-- The `due` argument of `ReminderItemFactory.normalize_date`, whose Python
type is `str | datetime | date | None`: a stored string, an already-parsed
datetime, a pure calendar date (given as a day index), or `None`. -/
inductive DueInput where
  | str (s : RawDate)
  | dt (t : Int)
  | dateOnly (d : Int)
  | none
deriving DecidableEq, Repr

/-- `ReminderItemFactory.normalize_date` (const.py lines 66-87).  A string is
parsed with `fromisoformat` (a successful parse always yields a datetime); on
parse failure the value falls through the isinstance chain to the logging
`else` branch and the function returns `None`.  A pure date is combined with
09:00; a missing due becomes `datetime.now() + timedelta(days=1)` — a full
datetime keeping the current clock time, hence `now` is a parameter here. -/
def normalize_date (due_date : DueInput) (now : Int) : Option Int :=
  match due_date with
  | .str s =>
    match fromisoformat s with
    | some t => some t
    | Option.none => Option.none
  | .dt t => some t
  | .dateOnly d => some (d * secPerDay + 9 * 3600)
  | .none => some (now + secPerDay)

/-- `ReminderItemFactory` constructor state.  `summary` is a string at every
construction site (the `add_item` service schema requires one). -/
structure Factory where
  uid : Option String
  list_id : Option String
  summary : String
  due : DueInput
deriving DecidableEq, Repr

/-- `ReminderItemFactory.build(ctx_uid)` (const.py lines 89-100).  `gen_uid`
stands for the freshly generated `uuid4` hex; `self.uid or gen_uid` is Python
truthiness.  The `due_date == None` defaulting branch builds tomorrow at 09:00;
the final pure-date check is vacuous here because `normalize_date` never
returns a pure date. -/
def Factory.build (f : Factory) (ctx_uid : String) (now : Int) (gen_uid : String) :
    Except String ReminderItem :=
  let uid := match f.uid with
    | some u => if u ≠ "" then u else gen_uid
    | Option.none => gen_uid
  let due_date := normalize_date f.due now
  match f.list_id with
  | Option.none => .error "ValueError: cant create a ReminderItem with no list_id"
  | some lid =>
    let due := match due_date with
      | some d => d
      | Option.none => atTime (now + secPerDay) 9 0 0
    .ok ⟨uid, lid, f.summary, due, some ctx_uid, Option.none⟩

/-! ## Entity operations (custom_components/user_reminders/reminder_entity.py) -/

/-- The per-user list entity: its owning user id and its `_attr_unique_id`
(always a non-empty `"user_reminders_<slug>"` string). -/
structure Entity where
  user_id : String
  unique_id : String
deriving DecidableEq, Repr

/-- `load_reminders(unique_id, reminders)` (reminder_entity.py lines 64-93).
Per record, in dict order: a falsy id raises; records of other lists are
skipped before any parsing; then `last_fired` and `due` are parsed with
`fromisoformat`, raising on a malformed string.  The `not due_str` half of the
first check is unrepresentable here because `RawRecord` always carries a due
string. -/
def load_reminders (unique_id : String) : Reminders → Except String (List ReminderItem)
  | [] => .ok []
  | (_, r) :: rest =>
    if r.id = "" then
      .error "ValueError: cant load reminder items with no id or due"
    else if unique_id = "" || r.list_id ≠ unique_id then
      load_reminders unique_id rest
    else do
      let lf ← parseOptDate r.last_fired
      let due ←
        match fromisoformat r.due with
        | some d => Except.ok d
        | Option.none => Except.error "ValueError: invalid isoformat string"
      let items ← load_reminders unique_id rest
      .ok (⟨r.id, unique_id, r.summary, due, r.user_id, lf⟩ :: items)

/-- `find_in_reminder_list` (reminder_entity.py lines 47-61): filter by list id
and uid; no match is a logged no-op (`.ok none`); more than one match raises;
a match owned by a different user than `ctx_uid` raises. -/
def find_in_reminder_list (unique_id ctx_uid uid : String)
    (reminders : List ReminderItem) : Except String (Option ReminderItem) :=
  let found := reminders.filter (fun r => r.list_id = unique_id && r.uid = uid)
  match found with
  | [] => .ok Option.none
  | [r] =>
    if r.user_id ≠ some ctx_uid then
      .error "ValueError: belongs to a different user"
    else
      .ok (some r)
  | _ => .error "ValueError: multiple reminders with the same uid found"

/-- The `ReminderItem` handed to `async_update_reminder_item` by the
`update_item` service layer: `uid` and `summary` are required strings, `due` is
a required `cv.datetime` (the full `DueInput` type is kept because
`normalize_date` accepts it), `last_fired` is an optional datetime. -/
structure UpdateItem where
  uid : String
  summary : String
  due : DueInput
  last_fired : Option Int
deriving DecidableEq, Repr

/-- `async_update_reminder_item` (reminder_entity.py lines 213-240).
`resolved_user` is `_get_user_from_call`'s result.  An `.ok m'` means the dict
became `m'` and `store.async_save(m')` ran; `.error` means the call raised with
no mutation (the raise points are all before the dict write).  A missing uid in
the list is a logged no-op that returns before saving.  Note the written
record: `summary` and `due` fall back to the stored values (summary on Python
falsiness, due on normalize failure), `user_id` is carried over, but
`last_fired` is taken from the call alone — `None` when the caller omitted
it. -/
def async_update_reminder_item (e : Entity) (resolved_user : Option String)
    (item : UpdateItem) (now : Int) (m : Reminders) : Except String Reminders :=
  if resolved_user ≠ some e.user_id then .error "Unauthorized"
  else do
    let reminders ← load_reminders e.unique_id m
    let found ← find_in_reminder_list e.unique_id e.user_id item.uid reminders
    match found with
    | Option.none => .ok m
    | some _ =>
      let due := normalize_date item.due now
      match lookup m item.uid with
      | Option.none => .error "KeyError"
      | some stored =>
        let newrec : RawRecord :=
          { id := item.uid
            list_id := e.unique_id
            summary := if item.summary ≠ "" then item.summary else stored.summary
            due := match due with
              | some d => .iso d
              | Option.none => stored.due
            user_id := stored.user_id
            last_fired := item.last_fired.map .iso }
        .ok (dictSet m item.uid newrec)

/-- The uid-by-uid deletion loop of `async_remove_reminder_items`
(reminder_entity.py lines 253-256): `reminders` is the list loaded once before
the loop; each found uid is `del`eted from the dict (a `del` on an absent key
raises `KeyError`); a find miss is skipped silently; a find error
(other-user or duplicate uid) propagates. -/
def removeLoop (e : Entity) (reminders : List ReminderItem) :
    List String → Reminders → Except String Reminders
  | [], m => .ok m
  | uid :: rest, m => do
    let found ← find_in_reminder_list e.unique_id e.user_id uid reminders
    match found with
    | Option.none => removeLoop e reminders rest m
    | some _ =>
      match lookup m uid with
      | Option.none => .error "KeyError"
      | some _ => removeLoop e reminders rest (dictErase m uid)

/-- `async_remove_reminder_items` (reminder_entity.py lines 242-260).  As for
update, `.ok m'` means the dict became `m'` and was saved; `.error` means the
call raised and the store was never saved (deletions made before an other-user
raise mutate only the in-memory dict). -/
def async_remove_reminder_items (e : Entity) (resolved_user : Option String)
    (uids : List String) (m : Reminders) : Except String Reminders :=
  if resolved_user ≠ some e.user_id then .error "Unauthorized"
  else do
    let reminders ← load_reminders e.unique_id m
    removeLoop e reminders uids m

/-- `async_create_reminder_item` (reminder_entity.py lines 181-211): after the
authorization check the factory gets the entity's list id, `build` runs, and
the built item is written into the dict under its uid; the whole dict is then
saved.  (`ctx_uid` equals the entity's user id once the check passed.) -/
def async_create_reminder_item (e : Entity) (resolved_user : Option String)
    (f : Factory) (now : Int) (gen_uid : String) (m : Reminders) :
    Except String Reminders :=
  if resolved_user ≠ some e.user_id then .error "Unauthorized"
  else do
    let f' : Factory := { f with list_id := some e.unique_id }
    let reminder ← f'.build e.user_id now gen_uid
    let newrec : RawRecord :=
      { id := reminder.uid
        list_id := e.unique_id
        summary := reminder.summary
        due := .iso reminder.due
        user_id := some e.user_id
        last_fired := Option.none }
    .ok (dictSet m reminder.uid newrec)

/-- The item view produced by `_sync_reminders_to_items`: its `last_fired`
field is the raw stored value, passed through unparsed (the code stores the
string straight into the `ReminderItem`). -/
structure ItemView where
  uid : String
  list_id : String
  summary : String
  due : Int
  user_id : Option String
  last_fired : Option RawDate
deriving DecidableEq, Repr

/-- Per-record body of `_sync_reminders_to_items` (reminder_entity.py lines
146-169): skip a falsy id, skip other users' records, normalize the stored due
string through `normalize_date` and skip the record when that fails (the
malformed-date case, logged inside `normalize_date`). -/
def syncOne (e : Entity) (now : Int) (r : RawRecord) : Option ItemView :=
  if r.id = "" then Option.none
  else if r.user_id ≠ some e.user_id then Option.none
  else
    match normalize_date (.str r.due) now with
    | Option.none => Option.none
    | some due => some ⟨r.id, e.unique_id, r.summary, due, r.user_id, r.last_fired⟩

/-- `_sync_reminders_to_items` (reminder_entity.py lines 142-175): the item
list rebuilt from the dict values, in order, dropping filtered and malformed
records. -/
def sync_reminders_to_items (e : Entity) (now : Int) (m : Reminders) : List ItemView :=
  m.filterMap (fun p => syncOne e now p.2)

/-! ## Time resolver (user_reminders/intents.py) -/

/-- `DAY_NAME_TO_WEEKDAY` (intents.py lines 33-49). -/
def DAY_NAME_TO_WEEKDAY (s : String) : Option Int :=
  if s = "monday" ∨ s = "mon" then some 0
  else if s = "tuesday" ∨ s = "tues" then some 1
  else if s = "wednesday" ∨ s = "wed" ∨ s = "weds" then some 2
  else if s = "thursday" ∨ s = "thu" then some 3
  else if s = "friday" ∨ s = "fri" then some 4
  else if s = "saturday" ∨ s = "sat" then some 5
  else if s = "sunday" ∨ s = "sun" then some 6
  else none

/-- `MONTH_NAME_TO_NUMBER` (intents.py lines 51-75). -/
def MONTH_NAME_TO_NUMBER (s : String) : Option Int :=
  if s = "january" ∨ s = "jan" then some 1
  else if s = "february" ∨ s = "feb" then some 2
  else if s = "march" ∨ s = "mar" then some 3
  else if s = "april" ∨ s = "apr" then some 4
  else if s = "may" then some 5
  else if s = "june" ∨ s = "jun" then some 6
  else if s = "july" ∨ s = "jul" then some 7
  else if s = "august" ∨ s = "aug" then some 8
  else if s = "september" ∨ s = "sep" then some 9
  else if s = "october" ∨ s = "oct" then some 10
  else if s = "november" ∨ s = "nov" then some 11
  else if s = "december" ∨ s = "dec" then some 12
  else none

/-- `TIME_UNIT_TO_TIMEDELTA` (intents.py lines 77-86), in seconds. -/
def TIME_UNIT_TO_TIMEDELTA (s : String) : Option Int :=
  if s = "minute" ∨ s = "minutes" then some 60
  else if s = "hour" ∨ s = "hours" then some 3600
  else if s = "day" ∨ s = "days" then some secPerDay
  else if s = "week" ∨ s = "weeks" then some (7 * secPerDay)
  else none

/-- `TIME_PERIOD_TO_HOUR` (intents.py lines 88-93). -/
def TIME_PERIOD_TO_HOUR (s : String) : Option Int :=
  if s = "morning" then some 9
  else if s = "afternoon" then some 14
  else if s = "evening" then some 18
  else if s = "night" then some 21
  else none

/-- `ReminderTimeResolver.handle_relative_day` (intents.py lines 106-135). -/
def handle_relative_day (now : Int) (relative_day : String) : Option Int :=
  let rd := pyLower relative_day
  if rd = "today" then some now
  else if rd = "tomorrow" then some (now + secPerDay)
  else if rd = "tonight" then
    let now' := if hourOf now > 21 then now + secPerDay else now
    some (atTime now' 21 0 0)
  else if rd = "next week" then some (now + 7 * secPerDay)
  else if rd = "this week" then some now
  else if rd = "this weekend" then
    let days_until_saturday := (5 - weekdayOf now).emod 7
    if days_until_saturday = 0 ∧ weekdayOf now = 5 then some now
    else some (now + days_until_saturday * secPerDay)
  else if rd = "next weekend" then
    let days_until_saturday := (5 - weekdayOf now).emod 7
    some (now + (days_until_saturday + 7) * secPerDay)
  else none

/-- `ReminderTimeResolver.handle_day_name` (intents.py lines 137-148). -/
def handle_day_name (now : Int) (day_name : String) : Option Int :=
  match DAY_NAME_TO_WEEKDAY (pyLower day_name) with
  | none => none
  | some target =>
    let days_ahead := target - weekdayOf now
    let days_ahead := if days_ahead ≤ 0 then days_ahead + 7 else days_ahead
    some (now + days_ahead * secPerDay)

/-- `ReminderTimeResolver.handle_relative_time` (intents.py lines 150-159).
Python's `int(...)` on a slot string is modelled by `pyToInt?`; a failed
conversion raises `ValueError`, which the function catches and turns into an
implicit `None`, as does an unknown unit. -/
def handle_relative_time (now : Int) (time_number time_unit : String) : Option Int :=
  match pyToInt? time_number with
  | none => none
  | some num =>
    match TIME_UNIT_TO_TIMEDELTA (pyLower time_unit) with
    | none => none
    | some delta => some (now + delta * num)

/-- Leap-year test of the proleptic Gregorian calendar. -/
def isLeap (y : Int) : Bool := (y.emod 4 = 0 && y.emod 100 ≠ 0) || y.emod 400 = 0

/-- Length of a month, for `datetime`'s day-of-month validation. -/
def daysInMonth (y m : Int) : Int :=
  if m = 2 then (if isLeap y then 29 else 28)
  else if m = 4 ∨ m = 6 ∨ m = 9 ∨ m = 11 then 30
  else 31

/-- Day index (days since 1970-01-01) of a civil date, standard era-based
Gregorian conversion. -/
def daysFromCivil (y m d : Int) : Int :=
  let y := if m ≤ 2 then y - 1 else y
  let era := y.ediv 400
  let yoe := y - era * 400
  let mp := if m > 2 then m - 3 else m + 9
  let doy := (153 * mp + 2).ediv 5 + d - 1
  let doe := yoe * 365 + yoe.ediv 4 - yoe.ediv 100 + doy
  era * 146097 + doe - 719468

/-- Civil date `(year, month, day)` of a day index, inverse of
`daysFromCivil`. -/
def civilFromDays (z : Int) : Int × Int × Int :=
  let z := z + 719468
  let era := z.ediv 146097
  let doe := z - era * 146097
  let yoe := (doe - doe.ediv 1460 + doe.ediv 36524 - doe.ediv 146096).ediv 365
  let y := yoe + era * 400
  let doy := doe - (365 * yoe + yoe.ediv 4 - yoe.ediv 100)
  let mp := (5 * doy + 2).ediv 153
  let d := doy - (153 * mp + 2).ediv 5 + 1
  let m := if mp < 10 then mp + 3 else mp - 9
  (if m ≤ 2 then y + 1 else y, m, d)

/-- `ReminderTimeResolver.handle_month_name_with_ordinal` (intents.py lines
161-185).  The ordinal's digits are extracted by dropping non-digit characters;
`int('')` on a digit-free ordinal raises a `ValueError` that nothing catches
(`.error`).  `now.replace(year, month, day, 9, 0, 0, 0)` replaces every field,
so the result only depends on `now` through its civil date; an invalid
day-of-month raises inside the try and yields `None`. -/
def handle_month_name_with_ordinal (now : Int) (month_name ordinal : String) :
    Except String (Option Int) :=
  match MONTH_NAME_TO_NUMBER (pyLower month_name) with
  | none => .ok none
  | some month_num =>
    match digitsToNat (ordinal.toList.filter Char.isDigit) with
    | none => .error "ValueError: invalid literal for int"
    | some dn =>
      let day_num : Int := dn
      let (ny, nm, nd) := civilFromDays (dateOf now)
      let year := if month_num < nm ∨ (month_num = nm ∧ day_num < nd) then ny + 1 else ny
      if 1 ≤ day_num ∧ day_num ≤ daysInMonth year month_num then
        .ok (some (daysFromCivil year month_num day_num * secPerDay + 9 * 3600))
      else
        .ok none

/-- Numeric value of a digit character. -/
def digitVal (c : Char) : Int := (c.toNat : Int) - 48

/-- The part of `TWELVE_HOUR_FORMAT_REGEX` after the hour digits:
`(?::(\d{2}))?\s*(am|pm)?$`, returning the optional minute and period.  Not
consuming an available `:DD` can never rescue a failed match (a leftover `:`
matches neither `\s*` nor `am|pm`), so the greedy parse is deterministic. -/
def parseHM12Rest (cs : List Char) : Option (Option Int × Option String) :=
  let (minu, cs1) : Option Int × List Char :=
    match cs with
    | ':' :: a :: b :: rest =>
      if a.isDigit && b.isDigit then (some (digitVal a * 10 + digitVal b), rest)
      else (none, cs)
    | _ => (none, cs)
  let cs2 := cs1.dropWhile Char.isWhitespace
  match cs2 with
  | [] => some (minu, none)
  | ['a', 'm'] => some (minu, some "am")
  | ['p', 'm'] => some (minu, some "pm")
  | _ => none

/-- `re.match` with `TWELVE_HOUR_FORMAT_REGEX = ^(\d{1,2})(?::(\d{2}))?\s*(am|pm)?$`
(intents.py line 30), with the regex's greedy-then-backtrack choice on the
hour digits made explicit. -/
def match12h (s : String) : Option (Int × Option Int × Option String) :=
  match s.toList with
  | [] => none
  | c1 :: rest1 =>
    if ¬ c1.isDigit then none
    else
      let one := (parseHM12Rest rest1).map fun mp => (digitVal c1, mp.1, mp.2)
      match rest1 with
      | c2 :: rest2 =>
        if c2.isDigit then
          match parseHM12Rest rest2 with
          | some (mi, p) => some (digitVal c1 * 10 + digitVal c2, mi, p)
          | none => one
        else one
      | [] => one

/-- `re.match` with `TWENTY_FOUR_HOUR_FORMAT_REGEX = ^(\d{1,2}):(\d{2})$`
(intents.py line 26). -/
def match24h (s : String) : Option (Int × Int) :=
  match s.toList with
  | [c1, ':', a, b] =>
    if c1.isDigit && a.isDigit && b.isDigit then
      some (digitVal c1, digitVal a * 10 + digitVal b)
    else none
  | [c1, c2, ':', a, b] =>
    if c1.isDigit && c2.isDigit && a.isDigit && b.isDigit then
      some (digitVal c1 * 10 + digitVal c2, digitVal a * 10 + digitVal b)
    else none
  | _ => none

/-- `ReminderTimeResolver.parse_hour_and_minute` (intents.py lines 231-267).
The 24-hour branch matches the regex against the *literal* string
`"{hour}:{minute}"` (the `f` prefix is missing in the source), so it never
matches and the branch is dead; it is still modelled as written. -/
def parse_hour_and_minute (hour : String) (minute : Option String) :
    Option Int × Option Int :=
  let hourL := pyStrip (pyLower hour)
  let minuteL : Option String :=
    match minute with
    | some s => if s ≠ "" then some (pyStrip (pyLower s)) else some s
    | none => none
  match (if truthyStr minute then match24h "{hour}:{minute}" else none) with
  | some (h, mi) => (some h, some mi)
  | none =>
    let time_str := if truthyStr minuteL then hourL ++ ":" ++ minuteL.getD "" else hourL
    match match12h time_str with
    | some (h, mi, period) =>
      let h :=
        if period = some "pm" && h ≠ 12 then h + 12
        else if period = some "am" && h = 12 then 0
        else h
      (some h, mi)
    | none =>
      if hourL = "noon" ∨ hourL = "midday" then (some 12, some 0)
      else if hourL = "midnight" then (some 0, some 0)
      else (none, none)

/-- `ReminderTimeResolver.apply_time_of_day` (intents.py lines 187-221).
`UNSET_DATE` is `datetime(1970, 1, 1)`, i.e. epoch 0, and the sentinel check
compares dates only.  The `if parsed_hour:` guard is Python truthiness, so a
parsed hour of `0` (midnight, `12am`) is treated like a failed parse and never
applied.  `dt_util.now()` is read twice in the source; the call is modelled at
the single instant `now`. -/
def apply_time_of_day (now result_date : Int)
    (time_period hour_number minute_number : Option String) : Int :=
  let rd := if dateOf result_date = 0 then now else result_date
  let rd1 :=
    if truthyStr time_period then
      match TIME_PERIOD_TO_HOUR (pyLower (time_period.getD "")) with
      | some h => atTime rd h 0 0
      | none => rd
    else if truthyStr hour_number then
      let (parsed_hour, parsed_minute) :=
        parse_hour_and_minute (hour_number.getD "") minute_number
      if truthyInt parsed_hour then
        atTime rd (parsed_hour.getD 0) (parsed_minute.getD 0) 0
      else rd
    else atTime rd 9 0 0
  if rd1 < now then rd1 + secPerDay else rd1

/-- `ReminderTimeResolver.is_in_relative_minutes` (intents.py lines 223-229):
both slots non-`None` (not truthiness here) and the unit — not lowercased —
among the minute/hour forms only. -/
def is_in_relative_minutes (time_number time_unit : Option String) : Bool :=
  time_number.isSome &&
    (match time_unit with
     | some u => u = "minute" || u = "hour" || u = "minutes" || u = "hours"
     | none => false)

/-- The optional slot values `parse_due_from_slots` reads through
`get_slot_value`. -/
structure Slots where
  relative_day : Option String
  day_name : Option String
  time_number : Option String
  time_unit : Option String
  time_period : Option String
  hour_number : Option String
  minute_number : Option String
  month_name : Option String
  ordinal : Option String
deriving DecidableEq, Repr

/-- Slot set with nothing populated. -/
def Slots.empty : Slots := ⟨none, none, none, none, none, none, none, none, none⟩

/-- `ReminderIntentHandlerBase.parse_due_from_slots` (intents.py lines
324-362): the priority dispatch over the slot groups (each guard is Python
truthiness), the `None -> now + 1 day` promotion, and the time-of-day
refinement, skipped iff `is_in_relative_minutes` — which is re-evaluated on the
raw time slots regardless of which branch produced the date.  When no group
matches, `result_date` keeps the `UNSET_DATE` sentinel (epoch 0), which is not
`None`, so refinement still runs and replaces it with `now`.  The only
uncatchable exception is the digit-free-ordinal `ValueError`. -/
def parse_due_from_slots (now : Int) (s : Slots) : Except String Int :=
  let step :=
    if truthyStr s.relative_day then
      .ok (handle_relative_day now (s.relative_day.getD ""))
    else if truthyStr s.day_name then
      .ok (handle_day_name now (s.day_name.getD ""))
    else if truthyStr s.time_number && truthyStr s.time_unit then
      .ok (handle_relative_time now (s.time_number.getD "") (s.time_unit.getD ""))
    else if truthyStr s.month_name && truthyStr s.ordinal then
      handle_month_name_with_ordinal now (s.month_name.getD "") (s.ordinal.getD "")
    else
      .ok (some 0)
  match step with
  | .error e => .error e
  | .ok rdOpt =>
    let result_date :=
      match rdOpt with
      | none => now + secPerDay
      | some d => d
    if is_in_relative_minutes s.time_number s.time_unit then
      .ok result_date
    else
      .ok (apply_time_of_day now result_date s.time_period s.hour_number s.minute_number)

/-- The persisted collection after an entity call: an `.ok m'` result saved
`m'`; a raise left the last saved state in place. -/
def persistedAfter (r : Except String Reminders) (m : Reminders) : Reminders :=
  match r with
  | .ok m' => m'
  | .error _ => m

/-! ## Dictionary lemmas -/

theorem lookup_none_iff_not_any (m : Reminders) (k : String) :
    lookup m k = none ↔ m.any (fun p => p.1 = k) = false := by
  induction m with
  | nil => simp [lookup]
  | cons p rest ih =>
    obtain ⟨a, b⟩ := p
    by_cases h : a = k
    · simp [lookup, h]
    · simp [lookup, h, ih]

theorem lookup_append_single_self (m : Reminders) (k : String) (v : RawRecord)
    (h : lookup m k = none) : lookup (m ++ [(k, v)]) k = some v := by
  induction m with
  | nil => simp [lookup]
  | cons p rest ih =>
    obtain ⟨a, b⟩ := p
    by_cases hp : a = k
    · simp [lookup, hp] at h
    · simp only [lookup, if_neg hp] at h
      simp only [List.cons_append, lookup, if_neg hp]
      exact ih h

theorem lookup_append_single_other (m : Reminders) (k k' : String) (v : RawRecord)
    (h : k' ≠ k) : lookup (m ++ [(k, v)]) k' = lookup m k' := by
  induction m with
  | nil =>
    have hk : ¬ k = k' := fun hh => h hh.symm
    simp [lookup, hk]
  | cons p rest ih =>
    obtain ⟨a, b⟩ := p
    by_cases hp : a = k'
    · simp [lookup, hp]
    · simp only [List.cons_append, lookup, if_neg hp]
      exact ih

theorem lookup_map_set_self (m : Reminders) (k : String) (v : RawRecord)
    (h : m.any (fun p => p.1 = k) = true) :
    lookup (m.map (fun p => if p.1 = k then (k, v) else p)) k = some v := by
  induction m with
  | nil => simp at h
  | cons p rest ih =>
    obtain ⟨a, b⟩ := p
    by_cases hp : a = k
    · subst hp
      rw [List.map_cons, if_pos rfl]
      simp [lookup]
    · have h' : rest.any (fun p => p.1 = k) = true := by simpa [hp] using h
      simp only [List.map_cons]
      rw [if_neg hp]
      simp only [lookup, if_neg hp]
      exact ih h'

theorem lookup_map_set_other (m : Reminders) (k k' : String) (v : RawRecord)
    (h : k' ≠ k) :
    lookup (m.map (fun p => if p.1 = k then (k, v) else p)) k' = lookup m k' := by
  induction m with
  | nil => rfl
  | cons p rest ih =>
    obtain ⟨a, b⟩ := p
    by_cases hp : a = k
    · have hk : ¬ k = k' := fun hh => h hh.symm
      have ha : ¬ a = k' := fun hh => h (hp ▸ hh).symm
      simp only [List.map_cons]
      rw [if_pos hp]
      simp only [lookup, if_neg hk, if_neg ha]
      exact ih
    · simp only [List.map_cons]
      rw [if_neg hp]
      by_cases hq : a = k'
      · simp [lookup, hq]
      · simp only [lookup, if_neg hq]
        exact ih

theorem lookup_dictSet_self (m : Reminders) (k : String) (v : RawRecord) :
    lookup (dictSet m k v) k = some v := by
  unfold dictSet
  by_cases h : m.any (fun p => p.1 = k)
  · simp only [h, if_true]
    exact lookup_map_set_self m k v h
  · simp only [h, if_false]
    exact lookup_append_single_self m k v
      ((lookup_none_iff_not_any m k).2 (Bool.eq_false_iff.mpr h))

theorem lookup_dictSet_other (m : Reminders) (k k' : String) (v : RawRecord)
    (h : k' ≠ k) : lookup (dictSet m k v) k' = lookup m k' := by
  unfold dictSet
  by_cases ha : m.any (fun p => p.1 = k)
  · simp only [ha, if_true]
    exact lookup_map_set_other m k k' v h
  · simp only [ha, if_false]
    exact lookup_append_single_other m k k' v h

theorem lookup_dictErase (m : Reminders) (k k' : String) :
    lookup (dictErase m k) k' = if k' = k then none else lookup m k' := by
  induction m with
  | nil => simp [dictErase, lookup]
  | cons p rest ih =>
    obtain ⟨a, b⟩ := p
    by_cases hp : a = k
    · have hstep : dictErase ((a, b) :: rest) k = dictErase rest k := by
        simp [dictErase, List.filter_cons, hp]
      rw [hstep, ih]
      by_cases hq : k' = k
      · simp [hq]
      · have ha : ¬ a = k' := fun hh => hq ((hh ▸ hp : k' = k))
        simp only [if_neg hq, lookup, if_neg ha]
    · have hstep : dictErase ((a, b) :: rest) k = (a, b) :: dictErase rest k := by
        simp [dictErase, List.filter_cons, hp]
      rw [hstep]
      by_cases hr : a = k'
      · have hq : ¬ k' = k := fun hh => hp (hr.trans hh)
        simp [lookup, hr, hq]
      · simp only [lookup, if_neg hr, ih]

/-! ## Theorems -/

/-- C1: on a scheduler poll tick at time `now`, a due-event is emitted for a
reminder iff its due is at most `now` and its last_fired is null or at least 24
hours before `now`; in particular, with due in the past, a last_fired 23 hours
ago does not fire and one 25 hours ago does. -/
theorem c1_scheduler_fires_iff_due_and_over_24h
    (now due : Int) (lf : Option Int) (uid lid su : String) (user : Option String) :
    (checkTick now [⟨uid, lid, su, .iso due, user, lf.map .iso⟩] =
        ⟨[⟨uid, su, due, user, lid⟩], [(uid, now)], none⟩ ↔
      due ≤ now ∧ (lf = none ∨ ∃ t, lf = some t ∧ now - t ≥ 24 * 3600))
  ∧ (due ≤ now →
      checkTick now [⟨uid, lid, su, .iso due, user, some (.iso (now - 23 * 3600))⟩] =
        ⟨[], [], none⟩)
  ∧ (due ≤ now →
      checkTick now [⟨uid, lid, su, .iso due, user, some (.iso (now - 25 * 3600))⟩] =
        ⟨[⟨uid, su, due, user, lid⟩], [(uid, now)], none⟩) := by
  refine ⟨?_, ?_, ?_⟩
  · cases lf with
    | none =>
      simp only [checkTick, parseOptDate, fromisoformat, Option.map_none',
        last_fired_in_over_24h, mkDueEvent, Bool.and_true, and_true]
      by_cases hd : due ≤ now
      · simp [hd]
      · simp [hd, TickResult.mk.injEq]
    | some t =>
      simp only [checkTick, parseOptDate, fromisoformat, Option.map_some',
        last_fired_in_over_24h, mkDueEvent]
      by_cases hd : due ≤ now
      · by_cases hl : t ≤ now - 24 * 3600 <;>
          simp [hd, hl, TickResult.mk.injEq] <;> omega
      · simp [hd, TickResult.mk.injEq]
  · intro hd
    simp [checkTick, parseOptDate, fromisoformat, last_fired_in_over_24h, hd]
    omega
  · intro hd
    simp [checkTick, parseOptDate, fromisoformat, last_fired_in_over_24h,
      mkDueEvent, hd]
    omega

/-- Witness for C1 at `now = 100 days`, `due = 0`: 23 hours suppresses, 25
hours fires. -/
theorem c1_witness :
    (checkTick (100 * 86400)
        [⟨"u1", "l1", "s", .iso 0, some "a", some (.iso (100 * 86400 - 23 * 3600))⟩] =
      ⟨[], [], none⟩)
  ∧ (checkTick (100 * 86400)
        [⟨"u1", "l1", "s", .iso 0, some "a", some (.iso (100 * 86400 - 25 * 3600))⟩] =
      ⟨[⟨"u1", "s", 0, some "a", "l1"⟩], [("u1", 100 * 86400)], none⟩) := by
  have h := c1_scheduler_fires_iff_due_and_over_24h (100 * 86400) 0 none
    "u1" "l1" "s" (some "a")
  exact ⟨h.2.1 (by decide), h.2.2 (by decide)⟩

/-- C3: an update call whose resolved acting user id differs from the list's
owning user id raises `Unauthorized` before any mutation, and the persisted
collection is unchanged. -/
theorem c3_update_unauthorized_no_mutation (e : Entity) (ru : Option String)
    (item : UpdateItem) (now : Int) (m : Reminders)
    (h : ru ≠ some e.user_id) :
    async_update_reminder_item e ru item now m = .error "Unauthorized" ∧
    persistedAfter (async_update_reminder_item e ru item now m) m = m := by
  have hr : async_update_reminder_item e ru item now m = .error "Unauthorized" := by
    unfold async_update_reminder_item
    rw [if_pos h]
  exact ⟨hr, by rw [hr]; rfl⟩

/-- Witness for C3: a call by "bob" against "alice"'s list. -/
theorem c3_witness :
    async_update_reminder_item ⟨"alice", "l1"⟩ (some "bob")
        ⟨"u1", "s", .dt 0, none⟩ 0 [] = .error "Unauthorized" ∧
    persistedAfter (async_update_reminder_item ⟨"alice", "l1"⟩ (some "bob")
        ⟨"u1", "s", .dt 0, none⟩ 0 []) [] = [] :=
  c3_update_unauthorized_no_mutation ⟨"alice", "l1"⟩ (some "bob")
    ⟨"u1", "s", .dt 0, none⟩ 0 [] (by decide)

/-- C10: a successful create inserts exactly one entry into the persisted
mapping, keyed by the new item's uid, and every other entry of the mapping
passed to save is unchanged. -/
theorem c10_create_inserts_single_entry (e : Entity) (f : Factory) (now : Int)
    (gen_uid : String) (m : Reminders) (r : ReminderItem)
    (hb : Factory.build { f with list_id := some e.unique_id } e.user_id now gen_uid
      = .ok r)
    (hfresh : lookup m r.uid = none) :
    ∃ m', async_create_reminder_item e (some e.user_id) f now gen_uid m = .ok m' ∧
      m'.length = m.length + 1 ∧
      lookup m' r.uid =
        some ⟨r.uid, e.unique_id, r.summary, .iso r.due, some e.user_id, none⟩ ∧
      ∀ k, k ≠ r.uid → lookup m' k = lookup m k := by
  have hany : m.any (fun p => p.1 = r.uid) = false :=
    (lookup_none_iff_not_any m r.uid).1 hfresh
  have hres : async_create_reminder_item e (some e.user_id) f now gen_uid m =
      .ok (m ++ [(r.uid,
        ⟨r.uid, e.unique_id, r.summary, .iso r.due, some e.user_id, none⟩)]) := by
    unfold async_create_reminder_item
    rw [if_neg (by simp)]
    simp only [bind, hb, Except.bind, dictSet, hany, Bool.false_eq_true, if_false]
  refine ⟨_, hres, by simp, ?_, ?_⟩
  · exact lookup_append_single_self m r.uid _ hfresh
  · intro k hk
    exact lookup_append_single_other m r.uid k _ hk

/-- Witness for C10: creating "buy milk" with an explicit datetime due in an
empty store. -/
theorem c10_witness :
    ∃ m', async_create_reminder_item ⟨"alice", "user_reminders_alice"⟩
        (some "alice") ⟨none, none, "buy milk", .dt 500⟩ 0 "g1" [] = .ok m' ∧
      m'.length = ([] : Reminders).length + 1 ∧
      lookup m' "g1" =
        some ⟨"g1", "user_reminders_alice", "buy milk", .iso 500, some "alice", none⟩ ∧
      ∀ k, k ≠ "g1" → lookup m' k = lookup ([] : Reminders) k :=
  c10_create_inserts_single_entry ⟨"alice", "user_reminders_alice"⟩
    ⟨none, none, "buy milk", .dt 500⟩ 0 "g1" []
    ⟨"g1", "user_reminders_alice", "buy milk", 500, some "alice", none⟩
    (by rfl) (by rfl)

/-- C2 is refuted: an update that omits `last_fired` does not keep the stored
value — the written record's `last_fired` is reset to null (the stored value
was 50, the update carried none, the saved record holds none). -/
theorem c2_counterexample_update_resets_last_fired :
    (async_update_reminder_item ⟨"alice", "l1"⟩ (some "alice")
        ⟨"u1", "s", .dt 100, none⟩ 0
        [("u1", ⟨"u1", "l1", "s", .iso 100, some "alice", some (.iso 50)⟩)]
      = .ok [("u1", ⟨"u1", "l1", "s", .iso 100, some "alice", none⟩)]) ∧
    (RawRecord.last_fired ⟨"u1", "l1", "s", .iso 100, some "alice", none⟩
      ≠ some (.iso 50)) :=
  ⟨by rfl, by decide⟩

/-- C2 amended: in an authorized update of an existing reminder, `summary` and
`due` each fall back to the stored values when not effectively supplied (an
empty summary, a due that fails to normalize), and `user_id` is carried over;
but `last_fired` is taken from the call alone — the supplied value when
present, null when omitted — so it is not preserved across updates that omit
it. All other keys of the mapping are untouched. -/
theorem c2_amended_update_merge_semantics (e : Entity) (item : UpdateItem)
    (now : Int) (m : Reminders) (rl : List ReminderItem) (rr : ReminderItem)
    (stored : RawRecord)
    (hload : load_reminders e.unique_id m = .ok rl)
    (hfind : find_in_reminder_list e.unique_id e.user_id item.uid rl = .ok (some rr))
    (hstored : lookup m item.uid = some stored) :
    ∃ rec, async_update_reminder_item e (some e.user_id) item now m =
        .ok (dictSet m item.uid rec) ∧
      rec.summary = (if item.summary ≠ "" then item.summary else stored.summary) ∧
      rec.due = (match normalize_date item.due now with
        | some d => .iso d
        | none => stored.due) ∧
      rec.user_id = stored.user_id ∧
      rec.last_fired = item.last_fired.map .iso ∧
      lookup (dictSet m item.uid rec) item.uid = some rec ∧
      ∀ k, k ≠ item.uid → lookup (dictSet m item.uid rec) k = lookup m k := by
  refine ⟨⟨item.uid, e.unique_id,
    (if item.summary ≠ "" then item.summary else stored.summary),
    (match normalize_date item.due now with
      | some d => .iso d
      | none => stored.due),
    stored.user_id, item.last_fired.map .iso⟩, ?_, rfl, rfl, rfl, rfl,
    lookup_dictSet_self m item.uid _,
    fun k hk => lookup_dictSet_other m item.uid k _ hk⟩
  unfold async_update_reminder_item
  rw [if_neg (by simp)]
  simp only [bind, hload, Except.bind, hfind, hstored]

/-- Witness for the amended C2: the update that omits `last_fired` writes a
record whose summary and due are merged and whose `last_fired` is null. -/
theorem c2_amended_witness :
    ∃ rec, async_update_reminder_item ⟨"alice", "l1"⟩ (some "alice")
        ⟨"u1", "", .str (.bad "x"), none⟩ 0
        [("u1", ⟨"u1", "l1", "s", .iso 100, some "alice", some (.iso 50)⟩)] =
        .ok (dictSet [("u1", ⟨"u1", "l1", "s", .iso 100, some "alice", some (.iso 50)⟩)]
          "u1" rec) ∧
      rec.summary = (if ("" : String) ≠ "" then ""
        else RawRecord.summary ⟨"u1", "l1", "s", .iso 100, some "alice", some (.iso 50)⟩) ∧
      rec.due = (match normalize_date (.str (.bad "x")) 0 with
        | some d => .iso d
        | none => RawRecord.due ⟨"u1", "l1", "s", .iso 100, some "alice", some (.iso 50)⟩) ∧
      rec.user_id = RawRecord.user_id ⟨"u1", "l1", "s", .iso 100, some "alice", some (.iso 50)⟩ ∧
      rec.last_fired = Option.map RawDate.iso none ∧
      lookup (dictSet [("u1", ⟨"u1", "l1", "s", .iso 100, some "alice", some (.iso 50)⟩)]
        "u1" rec) "u1" = some rec ∧
      ∀ k, k ≠ "u1" →
        lookup (dictSet [("u1", ⟨"u1", "l1", "s", .iso 100, some "alice", some (.iso 50)⟩)]
          "u1" rec) k =
        lookup [("u1", ⟨"u1", "l1", "s", .iso 100, some "alice", some (.iso 50)⟩)] k :=
  c2_amended_update_merge_semantics ⟨"alice", "l1"⟩ ⟨"u1", "", .str (.bad "x"), none⟩ 0
    [("u1", ⟨"u1", "l1", "s", .iso 100, some "alice", some (.iso 50)⟩)]
    [⟨"u1", "l1", "s", 100, some "alice", some 50⟩]
    ⟨"u1", "l1", "s", 100, some "alice", some 50⟩
    ⟨"u1", "l1", "s", .iso 100, some "alice", some (.iso 50)⟩
    (by rfl) (by rfl) (by rfl)

/-- C5 describes the intent, but the code diverges: creating with a null due
stores `due = now + 1 day` at the *current* clock time, not at 09:00
(`normalize_date`'s `None` branch returns `datetime.now() + timedelta(days=1)`,
so `build`'s tomorrow-at-09:00 defaulting branch is dead).  At `now` = 15:00,
the stored due is tomorrow 15:00, which differs from tomorrow 09:00; the
claim's `lastFired = null` half does hold. -/
theorem c5_code_behavior_null_due_keeps_clock_time :
    (async_create_reminder_item ⟨"alice", "l1"⟩ (some "alice")
        ⟨none, none, "buy milk", .none⟩ (20000 * 86400 + 15 * 3600) "g1" []
      = .ok [("g1", ⟨"g1", "l1", "buy milk",
          .iso (20001 * 86400 + 15 * 3600), some "alice", none⟩)]) ∧
    (20001 * 86400 + 15 * 3600 : Int) ≠ atTime (20000 * 86400 + 15 * 3600 + 86400) 9 0 0 :=
  ⟨by rfl, by decide⟩

/-- C9 describes the intent, but the code diverges: `parse_hour_and_minute`
does map "midnight" to (0, 0), yet `apply_time_of_day` guards the application
with Python truthiness (`if parsed_hour:`), which is false for hour 0, so the
00:00 refinement is dropped and the date keeps its prior clock time.  At `now`
= 15:00 with slots tomorrow + "midnight", the due is tomorrow 15:00, whose
time-of-day is not 00:00. -/
theorem c9_code_behavior_midnight_not_applied :
    (parse_due_from_slots (20000 * 86400 + 15 * 3600)
        { Slots.empty with relative_day := some "tomorrow",
                           hour_number := some "midnight" }
      = .ok (20001 * 86400 + 15 * 3600)) ∧
    parse_hour_and_minute "midnight" none = (some 0, some 0) ∧
    timeOfDay (20001 * 86400 + 15 * 3600) ≠ 0 :=
  ⟨by rfl, by rfl, by decide⟩

/-- C4 is refuted for the day/week units: with `time_number = "3"`,
`time_unit = "days"` and `now` at 15:00, the resolved due is `now + 3 days`
*refined to 09:00*, not `now + 3 days` as-is — the refinement skip applies
only to minute/hour units. -/
theorem c4_counterexample_day_unit_refined :
    (parse_due_from_slots (20000 * 86400 + 15 * 3600)
        { Slots.empty with time_number := some "3", time_unit := some "days" }
      = .ok (20003 * 86400 + 9 * 3600)) ∧
    (20003 * 86400 + 9 * 3600 : Int) ≠ (20000 * 86400 + 15 * 3600) + 3 * secPerDay :=
  ⟨by rfl, by decide⟩

theorem parse_due_time_branch (now n : Int) (ns u : String) (d : Int)
    (tp hn mn : Option String)
    (hns : pyToInt? ns = some n) (hu : u ≠ "")
    (hd : TIME_UNIT_TO_TIMEDELTA (pyLower u) = some d) :
    parse_due_from_slots now
        ⟨none, none, some ns, some u, tp, hn, mn, none, none⟩ =
      (if is_in_relative_minutes (some ns) (some u) then .ok (now + d * n)
       else .ok (apply_time_of_day now (now + d * n) tp hn mn)) := by
  have hne : ns ≠ "" := by
    intro h
    rw [h, show pyToInt? "" = none from rfl] at hns
    exact Option.noConfusion hns
  have hrt : handle_relative_time now ns u = some (now + d * n) := by
    unfold handle_relative_time
    rw [hns, hd]
  have htn : truthyStr (some ns) = true := by simp [truthyStr, hne]
  have htu : truthyStr (some u) = true := by simp [truthyStr, hu]
  unfold parse_due_from_slots
  simp only [htn, htu, Bool.and_self, if_true, Option.getD_some, hrt,
    show truthyStr none = false from rfl, Bool.false_eq_true, if_false]

theorem apply_time_of_day_default (now rd : Int)
    (h0 : dateOf rd ≠ 0) (hge : ¬ atTime rd 9 0 0 < now) :
    apply_time_of_day now rd none none none = atTime rd 9 0 0 := by
  unfold apply_time_of_day
  simp only [truthyStr, h0, if_neg h0, Bool.false_eq_true, if_false, if_neg hge]

/-- C4 amended: with both time slots set (and no higher-priority slot), the
base due is `now + count * unit` for all four units, but the time-of-day
refinement is skipped only for minute/hour units; for day/week units the
refinement runs, so with no time-of-day slot the clock is forced to 09:00 (and
the past-rollover of the refinement still applies). -/
theorem c4_amended_refinement_skip_only_minute_hour (now n : Int) (ns : String)
    (hns : pyToInt? ns = some n) (tp hn mn : Option String) :
    (∀ p ∈ ([("minute", 60), ("minutes", 60), ("hour", 3600), ("hours", 3600)] :
        List (String × Int)),
      parse_due_from_slots now
          ⟨none, none, some ns, some p.1, tp, hn, mn, none, none⟩ =
        .ok (now + p.2 * n)) ∧
    (∀ p ∈ ([("day", secPerDay), ("days", secPerDay),
             ("week", 7 * secPerDay), ("weeks", 7 * secPerDay)] :
        List (String × Int)),
      dateOf (now + p.2 * n) ≠ 0 →
      ¬ atTime (now + p.2 * n) 9 0 0 < now →
      parse_due_from_slots now
          ⟨none, none, some ns, some p.1, none, none, none, none, none⟩ =
        .ok (atTime (now + p.2 * n) 9 0 0)) := by
  constructor
  · intro p hp
    fin_cases hp <;>
      rw [parse_due_time_branch now n ns _ _ tp hn mn hns (by decide) (by rfl)] <;>
      rw [if_pos (by simp [is_in_relative_minutes])]
  · intro p hp h0 hge
    fin_cases hp <;>
      rw [parse_due_time_branch now n ns _ _ none none none hns (by decide) (by rfl)] <;>
      rw [if_neg (by simp [is_in_relative_minutes])] <;>
      · rw [apply_time_of_day_default now _ h0 hge]

/-- Witness for the amended C4: "3 minutes" resolves to now + 180s untouched;
"3 days" resolves to three days ahead at 09:00. -/
theorem c4_amended_witness :
    (parse_due_from_slots (20000 * 86400 + 15 * 3600)
        ⟨none, none, some "3", some "minutes", none, none, none, none, none⟩ =
      .ok ((20000 * 86400 + 15 * 3600) + 60 * 3)) ∧
    (parse_due_from_slots (20000 * 86400 + 15 * 3600)
        ⟨none, none, some "3", some "days", none, none, none, none, none⟩ =
      .ok (atTime ((20000 * 86400 + 15 * 3600) + secPerDay * 3) 9 0 0)) := by
  have h := c4_amended_refinement_skip_only_minute_hour (20000 * 86400 + 15 * 3600) 3
    "3" (by rfl) none none none
  exact ⟨h.1 ("minutes", 60) (by simp),
    h.2 ("days", secPerDay) (by simp) (by decide) (by decide)⟩

/-- C6 is refuted for the `load_reminders` bulk load: a malformed stored due
string in the requested list raises a `ValueError` out of the whole load
instead of being dropped — the well-formed first record is not returned. -/
theorem c6_counterexample_load_reminders_raises :
    load_reminders "l1"
        [("u1", ⟨"u1", "l1", "good", .iso 100, some "alice", none⟩),
         ("u2", ⟨"u2", "l1", "bad", .bad "garbage", some "alice", none⟩)]
      = .error "ValueError: invalid isoformat string" := by rfl

/-- C6 amended: for the entity-state bulk load (`_sync_reminders_to_items`), a
record with a malformed stored due string is dropped (logged inside
`normalize_date`) and the loaded view holds exactly the well-formed records
owned by the entity's user with a non-empty id; the `load_reminders` bulk load
used by update/remove/get does not share this tolerance and instead raises on
a malformed due string. -/
theorem c6_amended_sync_drops_malformed (e : Entity) (now : Int) (m : Reminders)
    (item : ItemView) :
    item ∈ sync_reminders_to_items e now m ↔
      ∃ p ∈ m, p.2.id ≠ "" ∧ p.2.user_id = some e.user_id ∧
        ∃ d, normalize_date (.str p.2.due) now = some d ∧
          item = ⟨p.2.id, e.unique_id, p.2.summary, d, p.2.user_id, p.2.last_fired⟩ := by
  unfold sync_reminders_to_items
  rw [List.mem_filterMap]
  constructor
  · rintro ⟨p, hp, hs⟩
    refine ⟨p, hp, ?_⟩
    unfold syncOne at hs
    by_cases h1 : p.2.id = ""
    · rw [if_pos h1] at hs
      exact Option.noConfusion hs
    rw [if_neg h1] at hs
    by_cases h2 : p.2.user_id ≠ some e.user_id
    · rw [if_pos h2] at hs
      exact Option.noConfusion hs
    rw [if_neg h2] at hs
    push_neg at h2
    cases hnorm : normalize_date (.str p.2.due) now with
    | none =>
      rw [hnorm] at hs
      exact Option.noConfusion hs
    | some d =>
      rw [hnorm] at hs
      exact ⟨h1, h2, d, rfl, (Option.some.inj hs).symm⟩
  · rintro ⟨p, hp, h1, h2, d, hd, hitem⟩
    refine ⟨p, hp, ?_⟩
    unfold syncOne
    rw [if_neg h1, if_neg (by simp [h2]), hd, hitem]

theorem removeLoop_ok (e : Entity) (rl : List ReminderItem) (uids : List String) :
    ∀ (m : Reminders), uids.Nodup →
    (∀ uid ∈ uids,
      find_in_reminder_list e.unique_id e.user_id uid rl = .ok none ∨
      (∃ r, find_in_reminder_list e.unique_id e.user_id uid rl = .ok (some r) ∧
        lookup m uid ≠ none)) →
    ∃ m', removeLoop e rl uids m = .ok m' ∧
      (∀ k, k ∉ uids → lookup m' k = lookup m k) ∧
      (∀ k ∈ uids, find_in_reminder_list e.unique_id e.user_id k rl = .ok none →
        lookup m' k = lookup m k) ∧
      (∀ k ∈ uids, ∀ r,
        find_in_reminder_list e.unique_id e.user_id k rl = .ok (some r) →
        lookup m' k = none) := by
  induction uids with
  | nil =>
    intro m _ _
    exact ⟨m, rfl, fun _ _ => rfl, by simp, by simp⟩
  | cons uid rest ih =>
    intro m hnodup hok
    have hnd1 : uid ∉ rest := (List.nodup_cons.mp hnodup).1
    have hnd2 : rest.Nodup := (List.nodup_cons.mp hnodup).2
    rcases hok uid (by simp) with hfind | ⟨r, hfind, hlk⟩
    · have hstep : removeLoop e rl (uid :: rest) m = removeLoop e rl rest m := by
        conv_lhs => rw [removeLoop]
        rw [hfind]
        simp only [bind, Except.bind]
      obtain ⟨m', hm', h1, h2, h3⟩ := ih m hnd2 (fun u hu => hok u (by simp [hu]))
      refine ⟨m', by rw [hstep]; exact hm', ?_, ?_, ?_⟩
      · intro k hk
        exact h1 k (fun hh => hk (by simp [hh]))
      · intro k hk hf
        rcases List.mem_cons.mp hk with hkeq | hkr
        · subst hkeq
          exact h1 k hnd1
        · exact h2 k hkr hf
      · intro k hk r' hf
        rcases List.mem_cons.mp hk with hkeq | hkr
        · subst hkeq
          exact Option.noConfusion (Except.ok.inj (hfind.symm.trans hf))
        · exact h3 k hkr r' hf
    · obtain ⟨v, hv⟩ : ∃ v, lookup m uid = some v := by
        cases h : lookup m uid with
        | none => exact absurd h hlk
        | some v => exact ⟨v, rfl⟩
      have hstep : removeLoop e rl (uid :: rest) m =
          removeLoop e rl rest (dictErase m uid) := by
        conv_lhs => rw [removeLoop]
        rw [hfind]
        simp only [bind, Except.bind, hv]
      have hok' : ∀ u ∈ rest,
          find_in_reminder_list e.unique_id e.user_id u rl = .ok none ∨
          (∃ r', find_in_reminder_list e.unique_id e.user_id u rl = .ok (some r') ∧
            lookup (dictErase m uid) u ≠ none) := by
        intro u hu
        rcases hok u (by simp [hu]) with h | ⟨r', hr', hlu⟩
        · exact Or.inl h
        · refine Or.inr ⟨r', hr', ?_⟩
          have hne : u ≠ uid := fun hh => hnd1 (hh ▸ hu)
          rw [lookup_dictErase, if_neg hne]
          exact hlu
      obtain ⟨m', hm', h1, h2, h3⟩ := ih (dictErase m uid) hnd2 hok'
      refine ⟨m', by rw [hstep]; exact hm', ?_, ?_, ?_⟩
      · intro k hk
        have hk1 : k ≠ uid := fun hh => hk (by simp [hh])
        have hk2 : k ∉ rest := fun hh => hk (by simp [hh])
        rw [h1 k hk2, lookup_dictErase, if_neg hk1]
      · intro k hk hf
        rcases List.mem_cons.mp hk with hkeq | hkr
        · subst hkeq
          exact Option.noConfusion (Except.ok.inj (hfind.symm.trans hf))
        · have hne : k ≠ uid := fun hh => hnd1 (hh ▸ hkr)
          rw [h2 k hkr hf, lookup_dictErase, if_neg hne]
      · intro k hk r' hf
        rcases List.mem_cons.mp hk with hkeq | hkr
        · subst hkeq
          rw [h1 k hnd1, lookup_dictErase, if_pos rfl]
        · exact h3 k hkr r' hf

/-- C7 is refuted: a uid that is found in the list but owned by a different
user is not skipped silently — `find_in_reminder_list` raises, the whole
remove call fails instead of succeeding. -/
theorem c7_counterexample_other_user_aborts_remove :
    async_remove_reminder_items ⟨"alice", "l1"⟩ (some "alice") ["x"]
        [("x", ⟨"x", "l1", "s", .iso 100, some "bob", none⟩)]
      = .error "ValueError: belongs to a different user" := by rfl

/-- C7 amended: in an authorized remove over *pairwise-distinct* uids, each
uid not found in the list is skipped silently (logged) and each uid found and
owned by the caller is hard-deleted, with the call succeeding and all other
entries untouched.  The original claim's blanket skip-silently/call-succeeds
fails in two reachable cases: a uid found but owned by a *different* user
raises a ValueError out of the whole call (the counterexample), and a
found-and-owned uid repeated in the same call raises a KeyError on its second
deletion, because the loop re-finds it in the stale list loaded before the
loop and `del` hits the already-removed key. -/
theorem c7_amended_remove_semantics (e : Entity) (m : Reminders)
    (rl : List ReminderItem)
    (hload : load_reminders e.unique_id m = .ok rl) :
    (∀ (uids : List String), uids.Nodup →
      (∀ uid ∈ uids,
        find_in_reminder_list e.unique_id e.user_id uid rl = .ok none ∨
        (∃ r, find_in_reminder_list e.unique_id e.user_id uid rl = .ok (some r) ∧
          lookup m uid ≠ none)) →
      ∃ m', async_remove_reminder_items e (some e.user_id) uids m = .ok m' ∧
        (∀ k, k ∉ uids → lookup m' k = lookup m k) ∧
        (∀ k ∈ uids, find_in_reminder_list e.unique_id e.user_id k rl = .ok none →
          lookup m' k = lookup m k) ∧
        (∀ k ∈ uids, ∀ r,
          find_in_reminder_list e.unique_id e.user_id k rl = .ok (some r) →
          lookup m' k = none)) ∧
    (∀ (uid : String) (r : ReminderItem),
      find_in_reminder_list e.unique_id e.user_id uid rl = .ok (some r) →
      lookup m uid ≠ none →
      async_remove_reminder_items e (some e.user_id) [uid, uid] m =
        .error "KeyError") := by
  constructor
  · intro uids hnodup hok
    obtain ⟨m', hm', h1, h2, h3⟩ := removeLoop_ok e rl uids m hnodup hok
    refine ⟨m', ?_, h1, h2, h3⟩
    unfold async_remove_reminder_items
    rw [if_neg (by simp)]
    simp only [bind, hload, Except.bind]
    exact hm'
  · intro uid r hfind hlk
    obtain ⟨v, hv⟩ : ∃ v, lookup m uid = some v := by
      cases h : lookup m uid with
      | none => exact absurd h hlk
      | some v => exact ⟨v, rfl⟩
    unfold async_remove_reminder_items
    rw [if_neg (by simp)]
    simp only [bind, hload, Except.bind]
    have h1 : removeLoop e rl [uid, uid] m =
        removeLoop e rl [uid] (dictErase m uid) := by
      conv_lhs => rw [removeLoop]
      rw [hfind]
      simp only [bind, Except.bind, hv]
    rw [h1]
    have h2 : lookup (dictErase m uid) uid = none := by
      rw [lookup_dictErase, if_pos rfl]
    conv_lhs => rw [removeLoop]
    rw [hfind]
    simp only [bind, Except.bind, h2]

/-- Witness for the amended C7: removing `["x", "y"]` where only "x" exists
(the spec's scenario) deletes "x", skips "y", and succeeds; removing
`["x", "x"]` from the same store raises a KeyError. -/
theorem c7_amended_witness :
    (∃ m', async_remove_reminder_items ⟨"alice", "l1"⟩ (some "alice") ["x", "y"]
        [("x", ⟨"x", "l1", "s", .iso 100, some "alice", none⟩)] = .ok m' ∧
      (∀ k, k ∉ (["x", "y"] : List String) →
        lookup m' k = lookup [("x", ⟨"x", "l1", "s", .iso 100, some "alice", none⟩)] k) ∧
      (∀ k ∈ (["x", "y"] : List String),
        find_in_reminder_list "l1" "alice" k
          [⟨"x", "l1", "s", 100, some "alice", none⟩] = .ok none →
        lookup m' k = lookup [("x", ⟨"x", "l1", "s", .iso 100, some "alice", none⟩)] k) ∧
      (∀ k ∈ (["x", "y"] : List String), ∀ r,
        find_in_reminder_list "l1" "alice" k
          [⟨"x", "l1", "s", 100, some "alice", none⟩] = .ok (some r) →
        lookup m' k = none)) ∧
    async_remove_reminder_items ⟨"alice", "l1"⟩ (some "alice") ["x", "x"]
        [("x", ⟨"x", "l1", "s", .iso 100, some "alice", none⟩)] =
      .error "KeyError" := by
  have h := c7_amended_remove_semantics ⟨"alice", "l1"⟩
    [("x", ⟨"x", "l1", "s", .iso 100, some "alice", none⟩)]
    [⟨"x", "l1", "s", 100, some "alice", none⟩] (by rfl)
  refine ⟨h.1 ["x", "y"] (by decide) ?_,
    h.2 "x" ⟨"x", "l1", "s", 100, some "alice", none⟩ (by rfl) (by decide)⟩
  intro uid hu
  fin_cases hu
  · exact Or.inr ⟨⟨"x", "l1", "s", 100, some "alice", none⟩, by rfl, by decide⟩
  · exact Or.inl (by rfl)

/-- C8 is refuted: a malformed record placed before a due-and-fireable one
aborts the tick — nothing fires — while the same fireable reminder alone does
fire. -/
theorem c8_counterexample_parse_failure_aborts_tick :
    (checkTick 1000
        [⟨"bad", "l1", "s", .bad "garbage", some "alice", none⟩,
         ⟨"good", "l1", "s2", .iso 0, some "alice", none⟩]
      = ⟨[], [], some "ValueError: invalid isoformat string"⟩) ∧
    (checkTick 1000 [⟨"good", "l1", "s2", .iso 0, some "alice", none⟩]
      = ⟨[⟨"good", "s2", 0, some "alice", "l1"⟩], [("good", 1000)], none⟩) :=
  ⟨by rfl, by rfl⟩

theorem checkTick_cons_ok (now : Int) (r : RawRecord) (rest : List RawRecord)
    (d : Int) (lf : Option Int)
    (hd : fromisoformat r.due = some d)
    (hplf : parseOptDate r.last_fired = .ok lf) :
    checkTick now (r :: rest) =
      (if d ≤ now && last_fired_in_over_24h ⟨r.id, r.list_id, r.summary, d, r.user_id, lf⟩ now then
        ⟨mkDueEvent ⟨r.id, r.list_id, r.summary, d, r.user_id, lf⟩ :: (checkTick now rest).events,
         (r.id, now) :: (checkTick now rest).updates,
         (checkTick now rest).err⟩
      else checkTick now rest) := by
  conv_lhs => rw [checkTick]
  rw [hplf, hd]

/-- C8 amended: per-reminder isolation is absent.  A parse failure for one
reminder ends the tick at that record — no event is fired for it or for any
later reminder in the same tick; only when a segment of records all parse does
the tick evaluate each of them, firing exactly the due-and-fireable ones (the
tick's outcome is the concatenation of the per-record outcomes). -/
theorem c8_amended_tick_isolation (now : Int) :
    (∀ (r : RawRecord) (rest : List RawRecord),
      (fromisoformat r.due = none ∨
        ∃ b, r.last_fired = some b ∧ fromisoformat b = none) →
      (checkTick now (r :: rest)).events = [] ∧
      (checkTick now (r :: rest)).updates = [] ∧
      (checkTick now (r :: rest)).err.isSome = true) ∧
    (∀ (rs1 rs2 : List RawRecord),
      (∀ r ∈ rs1, (fromisoformat r.due).isSome = true ∧
        ∀ b, r.last_fired = some b → (fromisoformat b).isSome = true) →
      checkTick now (rs1 ++ rs2) =
        ⟨(checkTick now rs1).events ++ (checkTick now rs2).events,
         (checkTick now rs1).updates ++ (checkTick now rs2).updates,
         (checkTick now rs2).err⟩) := by
  constructor
  · intro r rest hbad
    have hres : ∃ e, checkTick now (r :: rest) = ⟨[], [], some e⟩ := by
      cases hplf : parseOptDate r.last_fired with
      | error e => exact ⟨e, by rw [checkTick, hplf]⟩
      | ok lf =>
        rcases hbad with hdue | ⟨b, hb, hfb⟩
        · exact ⟨_, by rw [checkTick, hplf, hdue]⟩
        · rw [hb] at hplf
          simp [parseOptDate, hfb] at hplf
    obtain ⟨e, he⟩ := hres
    simp [he]
  · intro rs1 rs2 hwf
    induction rs1 with
    | nil => rfl
    | cons r rest ih =>
      have hihyp := ih (fun r' hr' => hwf r' (by simp [hr']))
      obtain ⟨d, hd⟩ := Option.isSome_iff_exists.mp (hwf r (by simp)).1
      have hplf : ∃ lf, parseOptDate r.last_fired = .ok lf := by
        cases hb : r.last_fired with
        | none => exact ⟨none, rfl⟩
        | some b =>
          obtain ⟨t, ht⟩ := Option.isSome_iff_exists.mp ((hwf r (by simp)).2 b hb)
          exact ⟨some t, by simp [parseOptDate, ht]⟩
      obtain ⟨lf, hplf⟩ := hplf
      rw [List.cons_append, checkTick_cons_ok now r (rest ++ rs2) d lf hd hplf,
        checkTick_cons_ok now r rest d lf hd hplf, hihyp]
      by_cases hc : (d ≤ now &&
          last_fired_in_over_24h ⟨r.id, r.list_id, r.summary, d, r.user_id, lf⟩ now) = true
      · simp [hc]
      · simp [hc]

/-- Witness for the amended C8: the malformed head kills the tick outright,
and a clean two-record collection fires both reminders, the second not lost to
the first. -/
theorem c8_amended_witness :
    ((checkTick 1000 [⟨"bad", "l1", "s", .bad "zzz", some "a", none⟩,
        ⟨"good", "l1", "s2", .iso 0, some "a", none⟩]).events = [] ∧
      (checkTick 1000 [⟨"bad", "l1", "s", .bad "zzz", some "a", none⟩,
        ⟨"good", "l1", "s2", .iso 0, some "a", none⟩]).updates = [] ∧
      (checkTick 1000 [⟨"bad", "l1", "s", .bad "zzz", some "a", none⟩,
        ⟨"good", "l1", "s2", .iso 0, some "a", none⟩]).err.isSome = true) ∧
    checkTick 1000 ([⟨"good", "l1", "s2", .iso 0, some "a", none⟩] ++
        [⟨"good2", "l1", "s3", .iso 5, some "a", none⟩]) =
      ⟨(checkTick 1000 [⟨"good", "l1", "s2", .iso 0, some "a", none⟩]).events ++
          (checkTick 1000 [⟨"good2", "l1", "s3", .iso 5, some "a", none⟩]).events,
        (checkTick 1000 [⟨"good", "l1", "s2", .iso 0, some "a", none⟩]).updates ++
          (checkTick 1000 [⟨"good2", "l1", "s3", .iso 5, some "a", none⟩]).updates,
        (checkTick 1000 [⟨"good2", "l1", "s3", .iso 5, some "a", none⟩]).err⟩ := by
  have h := c8_amended_tick_isolation 1000
  refine ⟨h.1 ⟨"bad", "l1", "s", .bad "zzz", some "a", none⟩
      [⟨"good", "l1", "s2", .iso 0, some "a", none⟩] (Or.inl rfl), ?_⟩
  refine h.2 [⟨"good", "l1", "s2", .iso 0, some "a", none⟩]
    [⟨"good2", "l1", "s3", .iso 5, some "a", none⟩] ?_
  intro r hr
  fin_cases hr
  exact ⟨rfl, fun b hb => Option.noConfusion hb⟩

end UserReminders
